import Mathlib

/-!
Verification of the AMP HTTP proxy gateway (src/api/src/server.ts, Hono
variant).  The gateway's request handlers are embedded shallowly: the
mutable process state (rate-limit ledger, dataset-directory cache) is
passed explicitly, network effects (fetch to the indexer's query endpoint
and to the admin endpoint) are supplied as outcome parameters, and each
handler is a pure function from its inputs to the HTTP status and payload
it produces.  JavaScript-specific semantics that the code relies on
(string `.length` counting UTF-16 code units, truthiness of `0`, `||` on
strings, `String.prototype.includes`) are modelled explicitly.
-/

-- =============================================================================
-- Configuration constants (fixed in the source; env-configurable values are
-- threaded as parameters where a claim quantifies over the configuration)
-- =============================================================================

def RATE_LIMIT_WINDOW_MS : Int := 60000

def DATASETS_CACHE_TTL : Int := 60000

-- =============================================================================
-- Rate limiter (source lines 176-199)
-- =============================================================================

/-- The rate-limit ledger `rateLimitMap : Map<string, number[]>`, modelled as a
total function; `m ip` is `rateLimitMap.get(ip) || []` (an absent entry and an
empty list are observationally identical through that access pattern). -/
def RateMap : Type := String → List Int

/-- `rateLimit(ip)`: prune timestamps older than the window, reject without
mutation when the pruned count reaches the max, otherwise append `now` and
store the pruned-plus-new list.  `maxR` is `RATE_LIMIT_MAX`. -/
def rateLimit (maxR : Nat) (now : Int) (m : RateMap) (ip : String) : Bool × RateMap :=
  let timestamps := m ip
  let recent := timestamps.filter (fun t => decide (now - t < RATE_LIMIT_WINDOW_MS))
  if recent.length ≥ maxR then (false, m)
  else (true, fun ip2 => if ip2 = ip then recent ++ [now] else m ip2)

/-- The periodic sweep (lines 192-199): prune every entry; in the function
model, deleting an entry and storing the empty list coincide. -/
def rlCleanup (now : Int) (m : RateMap) : RateMap :=
  fun ip => (m ip).filter (fun t => decide (now - t < RATE_LIMIT_WINDOW_MS))

/-- Number of stored timestamps strictly inside the trailing window, exactly
the `recent` count the limiter computes. -/
def countInWindow (now : Int) (l : List Int) : Nat :=
  (l.filter (fun t => decide (now - t < RATE_LIMIT_WINDOW_MS))).length

-- =============================================================================
-- Dataset discovery cache (source lines 40-78)
-- =============================================================================

/-- Elements of the admin `/datasets` JSON array; only the `name` and `id`
fields are consulted by the code, so only they are represented.  `none`
models an absent, `null`, or `undefined` field (`??` treats these alike). -/
inductive AdminJson where
  | jstr (s : String)
  | jobj (name : Option AdminJson) (id : Option AdminJson)
  | jother

/-- `d.name ?? d.id ?? d` (property access on a non-object is `undefined`). -/
def coalesceName : AdminJson → AdminJson
  | .jobj (some v) _ => v
  | .jobj none (some v) => v
  | j => j

/-- `.filter((n) => typeof n === 'string')` applied after the coalesce. -/
def asString : AdminJson → Option String
  | .jstr s => some s
  | _ => none

/-- The `names` array computed from the admin response body. -/
def adminNames (data : List AdminJson) : List String :=
  (data.map coalesceName).filterMap asString

/-- `new Set(names)`: JS `Set` keeps the first occurrence of each element in
insertion order. -/
def dedupAux : List String → List String → List String
  | _, [] => []
  | seen, x :: xs => if x ∈ seen then dedupAux seen xs else x :: dedupAux (x :: seen) xs

def dedupFirst (l : List String) : List String := dedupAux [] l

/-- Module state of the discovery cache: `knownDatasets` (a `Set<string>`,
modelled as its first-occurrence iteration list) and `datasetsLastFetched`. -/
structure DirState where
  knownDatasets : List String
  datasetsLastFetched : Int
deriving DecidableEq

/-- Outcome of `fetch(AMP_ADMIN_URL + slash-datasets)`: the fetch may reject
(network error), return non-2xx (`res.ok` false), have a body `res.json()`
rejects on, or deliver a parsed JSON array. -/
inductive FetchOutcome where
  | networkError
  | httpNotOk
  | badJson
  | okJson (data : List AdminJson)

def FetchOutcome.isFailure : FetchOutcome → Bool
  | .okJson _ => false
  | _ => true

/-- `refreshDatasets()` (lines 44-66).  Returns the new state, the set the
function returns to its caller, and whether the admin endpoint was contacted.
Every failure path falls through to `return knownDatasets` — no error ever
escapes to the caller. -/
def refreshDatasets (now : Int) (st : DirState) (f : FetchOutcome) :
    DirState × List String × Bool :=
  if st.knownDatasets ≠ [] ∧ now - st.datasetsLastFetched < DATASETS_CACHE_TTL then
    (st, st.knownDatasets, false)
  else
    match f with
    | .okJson data =>
        let names := adminNames data
        if names ≠ [] then
          (⟨dedupFirst names, now⟩, dedupFirst names, true)
        else (st, st.knownDatasets, true)
    | _ => (st, st.knownDatasets, true)

-- =============================================================================
-- Dataset identifier validation (source lines 68-78)
-- =============================================================================

def isIdentStart (c : Char) : Bool := c.isAlpha || c = '_'

def isIdentChar (c : Char) : Bool := c.isAlphanum || c = '_'

/-- The test of /^[a-zA-Z_][a-zA-Z0-9_]*$/ (JS `$` is a hard end anchor). -/
def matchesIdent (s : String) : Bool :=
  match s.data with
  | [] => false
  | c :: cs => isIdentStart c && cs.all isIdentChar

def commaSep : String := ", "

def invalidMsg (ds : String) : String := "Invalid dataset identifier: " ++ ds

def unknownMsg (ds : String) (datasets : List String) : String :=
  "Unknown dataset: " ++ ds ++ ". Available: " ++ String.intercalate commaSep datasets

/-- `validateDataset` (lines 68-78); the thrown `Error` is an `Except.error`
carrying the message the code constructs.  The `datasets` argument is the
set returned by `refreshDatasets`, threaded explicitly. -/
def validateDataset (dataset : String) (datasets : List String) : Except String String :=
  if ¬ matchesIdent dataset then .error (invalidMsg dataset)
  else if datasets ≠ [] ∧ ¬ (dataset ∈ datasets) then .error (unknownMsg dataset datasets)
  else .ok dataset

-- =============================================================================
-- Query forwarder (source lines 84-103)
-- =============================================================================

/-- Outcome of the single `fetch(AMP_ENDPOINT, {method:'POST', body: sql})`:
rejection (carrying the runtime's error text), a non-2xx response with its
body text, or a 2xx response with its body text. -/
inductive UpstreamOutcome where
  | unreachable (msg : String)
  | httpError (status : Nat) (body : String)
  | ok (body : String)
deriving DecidableEq

def UpstreamOutcome.isFailure : UpstreamOutcome → Bool
  | .ok _ => false
  | _ => true

/-- `queryAmp` (lines 84-97): a non-2xx response becomes a thrown `Error`
whose message embeds the upstream status and body text. -/
def queryAmpResult (u : UpstreamOutcome) : Except String String :=
  match u with
  | .unreachable msg => .error msg
  | .httpError status body => .error ("AMP query failed: " ++ Nat.repr status ++ " - " ++ body)
  | .ok body => .ok body

/-- The `latest` field of a row parsed from the NDJSON body.  The `SELECT
MAX(block_num)` queries yield numeric markers; `missing` models a row
without the field (or a `null` one). -/
inductive LatestVal where
  | num (n : Int)
  | missing
deriving DecidableEq

structure MarkerRow where
  latest : LatestVal
deriving DecidableEq

/-- `rows[0]?.latest ? Number(rows[0].latest) : null` — the extraction shared
by the /blocks/latest and /health handlers.  A JS truthiness test guards the
conversion, so the number `0` takes the `null` branch. -/
def latestOf (rows : List MarkerRow) : Option Int :=
  match rows with
  | [] => none
  | r :: _ =>
    match r.latest with
    | .num n => if n ≠ 0 then some n else none
    | .missing => none

-- =============================================================================
-- String helpers for JS semantics
-- =============================================================================

/-- JS `String.prototype.length`: UTF-16 code units (astral codepoints count
twice). -/
def jsLength (s : String) : Nat :=
  s.data.foldl (fun n c => n + (if c.toNat ≤ 0xFFFF then 1 else 2)) 0

/-- UTF-8 byte length of a string (what the spec's "byte length" denotes). -/
def utf8Bytes (s : String) : Nat :=
  s.data.foldl
    (fun n c =>
      n + (if c.toNat ≤ 0x7F then 1 else if c.toNat ≤ 0x7FF then 2
           else if c.toNat ≤ 0xFFFF then 3 else 4)) 0

def hasSub (needle : List Char) : List Char → Bool
  | [] => needle.isEmpty
  | c :: rest => needle.isPrefixOf (c :: rest) || hasSub needle rest

/-- JS `s.includes(pat)`. -/
def jsIncludes (s pat : String) : Bool := hasSub pat.data s.data

/-- The code points ECMAScript `String.prototype.trim` removes: WhiteSpace
(TAB, VT, FF, SP, NBSP, ZWNBSP and the Unicode Zs category) and the
LineTerminators (LF, CR, LS, PS). -/
def isJsSpace (c : Char) : Bool :=
  c = '\t' || c = '\n' || c.toNat = 0x0B || c.toNat = 0x0C || c = '\r' || c = ' '
  || c.toNat = 0xA0 || c.toNat = 0x1680
  || (decide (0x2000 ≤ c.toNat) && decide (c.toNat ≤ 0x200A))
  || c.toNat = 0x2028 || c.toNat = 0x2029 || c.toNat = 0x202F || c.toNat = 0x205F
  || c.toNat = 0x3000 || c.toNat = 0xFEFF

/-- JS `.trim()` on the character list. -/
def trimL (l : List Char) : List Char :=
  ((l.dropWhile isJsSpace).reverse.dropWhile isJsSpace).reverse

-- =============================================================================
-- SQL normalisation (source line 227)
-- =============================================================================

/-- ECMAScript LineTerminators (LF, CR, LS, PS): with the `m` flag, `^`
anchors at the start of the string and immediately after any of these — not
only after `\n`. -/
def isLineTerm (c : Char) : Bool :=
  c = '\n' || c = '\r' || c.toNat = 0x2028 || c.toNat = 0x2029

/-- Consume through the first `\n` — the only character that can end a match
of the line-comment pattern, since its inner class excludes exactly `\n` (a
`\r` or LS/PS inside the comment is consumed by that class). -/
def dropThroughNl : List Char → Option (List Char)
  | [] => none
  | '\n' :: rest => some rest
  | _ :: rest => dropThroughNl rest

/-- Removal of line comments per `/^--[^\n]*\n/gm`: at the string start and
immediately after every line terminator, an occurrence of `--` followed by
non-`\n` characters up to a `\n` is removed together with that newline, and
scanning resumes after it (again a line start); a `--` elsewhere, or one
with no `\n` anywhere after it, never matches — and with no `\n` left in
the input no later position can match either, so the remainder is kept
verbatim.  The fuel argument (one unit per examined character, so the input
length suffices) keeps the recursion structural. -/
def slGo : Nat → Bool → List Char → List Char
  | 0, _, l => l
  | _ + 1, _, [] => []
  | fuel + 1, atStart, '-' :: '-' :: rest =>
    if atStart then
      match dropThroughNl rest with
      | some rest2 => slGo fuel true rest2
      | none => '-' :: '-' :: rest
    else '-' :: slGo fuel false ('-' :: rest)
  | fuel + 1, _, c :: rest => c :: slGo fuel (isLineTerm c) rest

def stripLineL (l : List Char) : List Char := slGo l.length true l

/-- Consume through the nearest `*/`, returning the text after it, or `none`
when no closer occurs (then the lazy regex has no match at this opener, nor
at any later one, since every later closer would also close this one). -/
def dropToClose : List Char → Option (List Char)
  | '*' :: '/' :: rest => some rest
  | _ :: rest => dropToClose rest
  | [] => none

/-- Removal of block comments per the global lazy regex
`/\x2f\*[\s\S]*?\*\x2f/g`: scanning left to right, each opener `/*` together
with everything up to its nearest closer is dropped and scanning resumes
after the closer.  The recursion is driven by a fuel argument (one unit per
examined character, so the input length suffices) purely so the function is
structural and computable by the kernel. -/
def sbGo : Nat → List Char → List Char
  | 0, l => l
  | _ + 1, [] => []
  | fuel + 1, '/' :: '*' :: rest =>
    match dropToClose rest with
    | some rest2 => sbGo fuel rest2
    | none => '/' :: '*' :: rest
  | fuel + 1, c :: rest => c :: sbGo fuel rest

def stripBlockL (l : List Char) : List Char := sbGo l.length l

/-- `sql.trim().replace(line-comment regex, '').replace(block-comment regex,
'').trim()` from line 227. -/
def normalizeSql (s : String) : List Char :=
  trimL (stripBlockL (stripLineL (trimL s.data)))

def isWordChar (c : Char) : Bool := c.isAlphanum || c = '_'

/-- Case-insensitive anchored keyword test `/^KW\b/i`: the keyword (given in
upper case) must prefix the text and be followed by end-of-input or a
non-word character. -/
def kwTest : List Char → List Char → Bool
  | [], [] => true
  | [], c :: _ => !(isWordChar c)
  | _ :: _, [] => false
  | k :: ks, c :: cs => (c.toUpper == k) && kwTest ks cs

def kwSELECT : List Char := "SELECT".data

def kwWITH : List Char := "WITH".data

def kwEXPLAIN : List Char := "EXPLAIN".data

def kwINSERT : List Char := "INSERT".data

def kwUPDATE : List Char := "UPDATE".data

def kwDELETE : List Char := "DELETE".data

def kwDROP : List Char := "DROP".data

/-- Line 228: the admission test applied to the normalised text. -/
def isReadOnlySql (l : List Char) : Bool :=
  kwTest kwSELECT l || kwTest kwWITH l || kwTest kwEXPLAIN l

-- =============================================================================
-- POST /query handler (source lines 202-241)
-- =============================================================================

/-- The request body: raw text, or a JSON object of which only the `sql` and
`query` fields are read (`none` models an absent field). -/
inductive ReqBody where
  | text (s : String)
  | json (sqlField : Option String) (queryField : Option String)
deriving DecidableEq

/-- `sql = body.sql || body.query` for JSON bodies (`||`, so an empty-string
`sql` field falls through to `query`); the raw text otherwise. -/
def extractSql : ReqBody → Option String
  | .text s => some s
  | .json sqlField queryField =>
    match sqlField with
    | some s => if s = "" then queryField else some s
    | none => queryField

/-- Result of `handleQuery`: the HTTP status produced and, when the upstream
indexer was contacted, the SQL text `queryAmp` was called with. -/
structure HandleResult where
  status : Nat
  sentSql : Option String
deriving DecidableEq

/-- `handleQuery` (lines 202-241).  `maxQ` is `MAX_QUERY_SIZE` (default
10000), `rlMax` is `RATE_LIMIT_MAX` (default 60); the rate-limit ledger is
threaded through and returned updated. -/
def handleQuery (maxQ rlMax : Nat) (now : Int) (m : RateMap) (ip : String)
    (body : ReqBody) (u : UpstreamOutcome) : HandleResult × RateMap :=
  let rl := rateLimit rlMax now m ip
  let res :=
    if rl.1 = false then HandleResult.mk 429 none
    else
      match extractSql body with
      | none => HandleResult.mk 400 none
      | some sql =>
        if trimL sql.data = [] then HandleResult.mk 400 none
        else if jsLength sql > maxQ then HandleResult.mk 413 none
        else if !(isReadOnlySql (normalizeSql sql)) then HandleResult.mk 403 none
        else
          match queryAmpResult u with
          | .ok _ => HandleResult.mk 200 (some sql)
          | .error _ => HandleResult.mk 502 (some sql)
  (res, rl.2)

-- =============================================================================
-- GET /blocks/latest handler (source lines 247-265)
-- =============================================================================

def maxBlockSql (ds : String) : String :=
  "SELECT MAX(block_num) as latest FROM \"" ++ ds ++ "\".blocks"

def needleInvalid : String := "Invalid"

def needleUnknown : String := "Unknown"

def needleMissing : String := "Missing"

/-- The catch clause of the /blocks/latest handler (lines 259-264): dispatch
on substrings of the thrown error's message. -/
def errDispatch400 (msg : String) : Bool :=
  jsIncludes msg needleInvalid || jsIncludes msg needleUnknown || jsIncludes msg needleMissing

structure BlocksResp where
  status : Nat
  latestBlock : Option Int
deriving DecidableEq

/-- GET /blocks/latest (lines 247-265).  `datasetParam` is the query-string
parameter (`none` when absent; the guard is JS-falsy, so the empty string is
also treated as missing); `u` the indexer fetch outcome; `parsedRows` the
rows `queryAmpJson` parses from a successful NDJSON body (the JSON-text
parsing itself is not the subject of any claim and is supplied parsed). -/
def blocksLatest (now : Int) (st : DirState) (f : FetchOutcome)
    (datasetParam : Option String) (u : UpstreamOutcome)
    (parsedRows : List MarkerRow) : BlocksResp :=
  match datasetParam with
  | none => ⟨400, none⟩
  | some ds =>
    if ds = "" then ⟨400, none⟩
    else
      match validateDataset ds (refreshDatasets now st f).2.1 with
      | .error msg => if errDispatch400 msg then ⟨400, none⟩ else ⟨502, none⟩
      | .ok _ =>
        match queryAmpResult u with
        | .error msg => if errDispatch400 msg then ⟨400, none⟩ else ⟨502, none⟩
        | .ok _ => ⟨200, latestOf parsedRows⟩

-- =============================================================================
-- GET /health handler (source lines 115-147)
-- =============================================================================

/-- `queryAmpJson(...).catch(() => [])`: a failed per-dataset query degrades
to an empty row list. -/
def rowsAfterCatch (u : UpstreamOutcome) (parsed : List MarkerRow) : List MarkerRow :=
  match queryAmpResult u with
  | .error _ => []
  | .ok _ => parsed

structure HealthResp where
  status : String
  latestBlock : Option Int
  datasets : List (String × Option Int)
  queriesIssued : List String
deriving DecidableEq

/-- GET /health (lines 115-147) given the resolved directory `datasets` (the
set `refreshDatasets` returned, which never throws), the per-dataset indexer
outcome `u`, and the rows parsed from each successful body.  `datasetStatus`
is built in iteration order; `latestBlock` is `Math.max` over the non-null
values when any exist. -/
def healthHandler (datasets : List String) (u : String → UpstreamOutcome)
    (parsed : String → List MarkerRow) : HealthResp :=
  let entries := datasets.map (fun ds => (ds, latestOf (rowsAfterCatch (u ds) (parsed ds))))
  let blockValues := (entries.map Prod.snd).filterMap id
  let latestBlock :=
    match blockValues with
    | [] => none
    | v :: vs => some (vs.foldl max v)
  { status := "ok", latestBlock := latestBlock, datasets := entries,
    queriesIssued := datasets.map maxBlockSql }

-- =============================================================================
-- Helper lemmas
-- =============================================================================

lemma filter_length_mono {α : Type} (p q : α → Bool) (l : List α)
    (himp : ∀ a, q a = true → p a = true) :
    (l.filter q).length ≤ (l.filter p).length := by
  induction l with
  | nil => simp
  | cons c cs ih =>
    simp only [List.filter_cons]
    cases hq : q c
    · cases hp : p c
      · simpa using ih
      · simp only [List.length_cons]
        exact Nat.le_succ_of_le ih
    · rw [himp c hq]
      simp only [List.length_cons]
      exact Nat.succ_le_succ ih

lemma filter_length_lt {α : Type} (p q : α → Bool) (l : List α) (t0 : α)
    (h0 : t0 ∈ l) (hp : p t0 = true) (hq : q t0 = false)
    (himp : ∀ a, q a = true → p a = true) :
    (l.filter q).length < (l.filter p).length := by
  induction l with
  | nil => cases h0
  | cons c cs ih =>
    rcases List.mem_cons.mp h0 with rfl | hmem
    · have := filter_length_mono p q cs himp
      simp [List.filter_cons, hp, hq]
      omega
    · simp only [List.filter_cons]
      cases hqc : q c
      · cases hpc : p c
        · simpa using ih hmem
        · simp only [List.length_cons]
          exact Nat.lt_succ_of_lt (ih hmem)
      · rw [himp c hqc]
        simp only [List.length_cons]
        exact Nat.succ_lt_succ (ih hmem)

lemma rateLimit_true_iff (maxR : Nat) (now : Int) (m : RateMap) (ip : String) :
    (rateLimit maxR now m ip).1 = true ↔ countInWindow now (m ip) < maxR := by
  simp only [rateLimit, countInWindow]
  split
  · next h => simp; omega
  · next h => simp; omega

lemma rateLimit_false_frame (maxR : Nat) (now : Int) (m : RateMap) (ip : String)
    (h : (rateLimit maxR now m ip).1 = false) :
    (rateLimit maxR now m ip).2 = m := by
  simp only [rateLimit] at h ⊢
  split at h
  · next hc => simp [hc]
  · simp at h

lemma rateLimit_other_ip (maxR : Nat) (now : Int) (m : RateMap) (ip ip2 : String)
    (hne : ip2 ≠ ip) :
    (rateLimit maxR now m ip).2 ip2 = m ip2 := by
  simp only [rateLimit]
  split
  · rfl
  · simp [hne]

lemma countInWindow_strict (now now2 t0 : Int) (l : List Int)
    (hle : now ≤ now2) (ht : t0 ∈ l) (hin : now - t0 < RATE_LIMIT_WINDOW_MS)
    (hout : ¬(now2 - t0 < RATE_LIMIT_WINDOW_MS)) :
    countInWindow now2 l < countInWindow now l := by
  apply filter_length_lt _ _ l t0 ht
  · simpa using hin
  · simpa using hout
  · intro a ha
    simp only [decide_eq_true_eq] at ha ⊢
    omega

-- =============================================================================
-- C2
-- =============================================================================

/-- C2: a `rateLimit` call admits the request exactly when fewer than the
configured maximum stored timestamps lie strictly within the trailing window
before the call; a rejected call leaves the ledger untouched, and after a
rejection at the cap, a later call is admitted again as soon as one of the
timestamps counted at rejection time (in particular the oldest) has fallen
outside the window. -/
theorem c2_rateLimit (maxR : Nat) (now : Int) (m : RateMap) (ip : String) :
    ((rateLimit maxR now m ip).1 = true ↔ countInWindow now (m ip) < maxR)
    ∧ ((rateLimit maxR now m ip).1 = false → (rateLimit maxR now m ip).2 = m)
    ∧ (∀ now2 t0 : Int, countInWindow now (m ip) = maxR → now ≤ now2 →
        t0 ∈ m ip → now - t0 < RATE_LIMIT_WINDOW_MS →
        ¬(now2 - t0 < RATE_LIMIT_WINDOW_MS) →
        (rateLimit maxR now2 m ip).1 = true) := by
  refine ⟨rateLimit_true_iff maxR now m ip, rateLimit_false_frame maxR now m ip, ?_⟩
  intro now2 t0 hcap hle ht hin hout
  apply (rateLimit_true_iff maxR now2 m ip).mpr
  have := countInWindow_strict now now2 t0 (m ip) hle ht hin hout
  omega

/-- C2 witness: with max 1 and one stored admitted timestamp at 0, the call
at time 0 is at the cap; once that oldest timestamp leaves the window the
client is admitted again. -/
theorem c2_rateLimit_witness : (rateLimit 1 60000 (fun _ => [0]) "a").1 = true :=
  (c2_rateLimit 1 0 (fun _ => [0]) "a").2.2 60000 0 (by decide) (by decide)
    (by decide) (by decide) (by decide)

-- =============================================================================
-- C10
-- =============================================================================

/-- C10: a rejected `rateLimit` call leaves the ledger exactly as it was (no
pruning, no append, for any client), and an admitting call changes no entry
other than the calling client's. -/
theorem c10_rateLimit_frame (maxR : Nat) (now : Int) (m : RateMap) (ip : String) :
    ((rateLimit maxR now m ip).1 = false → (rateLimit maxR now m ip).2 = m)
    ∧ (∀ ip2, ip2 ≠ ip → (rateLimit maxR now m ip).2 ip2 = m ip2) :=
  ⟨rateLimit_false_frame maxR now m ip,
   fun ip2 hne => rateLimit_other_ip maxR now m ip ip2 hne⟩

/-- C10 witness: a rejected call (max 0) leaves another client's (empty)
entry untouched. -/
theorem c10_rateLimit_frame_witness :
    (rateLimit 0 0 (fun _ => ([] : List Int)) "a").2 "b" = [] :=
  (c10_rateLimit_frame 0 0 (fun _ => ([] : List Int)) "a").2 "b" (by decide)

lemma dedupFirst_ne_nil (l : List String) (h : l ≠ []) : dedupFirst l ≠ [] := by
  cases l with
  | nil => exact absurd rfl h
  | cons x xs => simp [dedupFirst, dedupAux]

-- =============================================================================
-- C3
-- =============================================================================

/-- C3: while the cached set is non-empty and younger than one TTL — which is
the state every successful refresh leaves behind, since an update only
happens for a non-empty name list and stamps the fetch time — a call returns
the cache without contacting the admin endpoint; and on every failed fetch
(network error, non-2xx, malformed body) the cached set and its timestamp
are retained unchanged while the cached set is returned normally to the
caller. -/
theorem c3_refreshDatasets (now : Int) (st : DirState) (f : FetchOutcome) :
    (st.knownDatasets ≠ [] → now - st.datasetsLastFetched < DATASETS_CACHE_TTL →
        refreshDatasets now st f = (st, st.knownDatasets, false))
    ∧ (f.isFailure = true →
        (refreshDatasets now st f).1 = st
        ∧ (refreshDatasets now st f).2.1 = st.knownDatasets)
    ∧ (∀ data, f = .okJson data → adminNames data ≠ [] →
        ¬(st.knownDatasets ≠ [] ∧ now - st.datasetsLastFetched < DATASETS_CACHE_TTL) →
        (refreshDatasets now st f).1 = ⟨dedupFirst (adminNames data), now⟩
        ∧ (refreshDatasets now st f).1.knownDatasets ≠ []) := by
  refine ⟨?_, ?_, ?_⟩
  · intro h1 h2
    simp [refreshDatasets, h1, h2]
  · intro hf
    by_cases hc : st.knownDatasets ≠ [] ∧ now - st.datasetsLastFetched < DATASETS_CACHE_TTL
    · simp [refreshDatasets, hc]
    · cases f with
      | okJson data => simp [FetchOutcome.isFailure] at hf
      | networkError => simp [refreshDatasets, hc]
      | httpNotOk => simp [refreshDatasets, hc]
      | badJson => simp [refreshDatasets, hc]
  · intro data hfeq hnames hc
    subst hfeq
    constructor
    · simp [refreshDatasets, hc, hnames]
    · simp [refreshDatasets, hc, hnames]
      exact dedupFirst_ne_nil _ hnames

/-- C3 witness: a fresh non-empty cache short-circuits, and a network
failure on a stale cache retains state. -/
theorem c3_refreshDatasets_witness :
    refreshDatasets 0 ⟨["a"], 0⟩ FetchOutcome.networkError = (⟨["a"], 0⟩, ["a"], false) :=
  (c3_refreshDatasets 0 ⟨["a"], 0⟩ FetchOutcome.networkError).1 (by decide) (by decide)

-- =============================================================================
-- C6
-- =============================================================================

/-- C6: `validateDataset` rejects with the invalid-identifier error every
string failing the identifier pattern, whatever the directory holds; rejects
with the unknown-dataset error a well-formed identifier absent from a
non-empty directory; and accepts every well-formed identifier when the
directory is empty. -/
theorem c6_validateDataset (ds : String) (datasets : List String) :
    (matchesIdent ds = false → validateDataset ds datasets = .error (invalidMsg ds))
    ∧ (matchesIdent ds = true → datasets ≠ [] → ds ∉ datasets →
        validateDataset ds datasets = .error (unknownMsg ds datasets))
    ∧ (matchesIdent ds = true → datasets = [] → validateDataset ds datasets = .ok ds) := by
  refine ⟨?_, ?_, ?_⟩
  · intro h
    simp [validateDataset, h]
  · intro h hne hnotin
    simp [validateDataset, h, hne, hnotin]
  · intro h hempty
    subst hempty
    simp [validateDataset, h]

/-- C6 witness: a malformed identifier is rejected against a populated
directory; a well-formed one is accepted against an empty directory. -/
theorem c6_validateDataset_witness :
    validateDataset "a-b" ["a-b"] = .error (invalidMsg "a-b")
    ∧ validateDataset "geo_evm_rpc_full" [] = .ok "geo_evm_rpc_full" :=
  ⟨(c6_validateDataset "a-b" ["a-b"]).1 (by decide),
   (c6_validateDataset "geo_evm_rpc_full" []).2.2 (by decide) rfl⟩

lemma lookup_map_self (g : String → Option Int) (datasets : List String) (ds : String)
    (h : ds ∈ datasets) :
    (datasets.map (fun d => (d, g d))).lookup ds = some (g ds) := by
  induction datasets with
  | nil => cases h
  | cons d rest ih =>
    by_cases hd : ds = d
    · subst hd
      simp [List.lookup]
    · have hbeq : (ds == d) = false := by simp [hd]
      simp only [List.map_cons, List.lookup, hbeq]
      rcases List.mem_cons.mp h with h1 | h1
      · exact absurd h1 hd
      · exact ih h1

lemma filterMap_id_map {α β : Type} (g : α → Option β) (l : List α) :
    (l.map g).filterMap id = l.filterMap g := by
  induction l with
  | nil => rfl
  | cons a l ih =>
    simp only [List.map_cons, List.filterMap_cons, id]
    cases g a <;> simp [ih]

lemma foldMax_eq_max (l : List Int) :
    (match l with | [] => none | v :: vs => some (vs.foldl max v)) = l.max? := by
  cases l <;> rfl

lemma isFailure_error (u : UpstreamOutcome) (h : u.isFailure = true) :
    ∃ msg, queryAmpResult u = .error msg := by
  cases u with
  | unreachable msg => exact ⟨msg, rfl⟩
  | httpError status body => exact ⟨_, rfl⟩
  | ok body => simp [UpstreamOutcome.isFailure] at h

-- =============================================================================
-- C7
-- =============================================================================

/-- C7: the health handler issues exactly one MAX(block_num) query per
dataset of the resolved directory; a dataset whose query failed is reported
with a null marker without aborting the call; the overall `latestBlock` is
the maximum of the non-null per-dataset markers (`none` when there is no
non-null marker); and the reported status is "ok" regardless of how many
per-dataset queries failed. -/
theorem c7_healthHandler (datasets : List String) (u : String → UpstreamOutcome)
    (parsed : String → List MarkerRow) (ds : String)
    (hmem : ds ∈ datasets) (hfail : (u ds).isFailure = true) :
    (healthHandler datasets u parsed).queriesIssued = datasets.map maxBlockSql
    ∧ (healthHandler datasets u parsed).datasets.lookup ds = some none
    ∧ (healthHandler datasets u parsed).latestBlock =
        (datasets.filterMap (fun d => latestOf (rowsAfterCatch (u d) (parsed d)))).max?
    ∧ (healthHandler datasets u parsed).status = "ok" := by
  refine ⟨rfl, ?_, ?_, rfl⟩
  · have hnull : latestOf (rowsAfterCatch (u ds) (parsed ds)) = none := by
      obtain ⟨msg, hmsg⟩ := isFailure_error (u ds) hfail
      simp [rowsAfterCatch, hmsg, latestOf]
    have := lookup_map_self (fun d => latestOf (rowsAfterCatch (u d) (parsed d))) datasets ds hmem
    simpa [healthHandler, hnull] using this
  · simp only [healthHandler]
    rw [List.map_map]
    rw [show (Prod.snd ∘ fun d => (d, latestOf (rowsAfterCatch (u d) (parsed d))))
        = fun d => latestOf (rowsAfterCatch (u d) (parsed d)) from rfl]
    rw [filterMap_id_map]
    exact foldMax_eq_max _

/-- C7 witness: a single dataset whose query fails is reported as null, the
overall maximum is null, and the status stays "ok". -/
theorem c7_healthHandler_witness :
    (healthHandler ["a"] (fun _ => .unreachable "down") (fun _ => [])).datasets.lookup "a"
      = some none
    ∧ (healthHandler ["a"] (fun _ => .unreachable "down") (fun _ => [])).latestBlock = none
    ∧ (healthHandler ["a"] (fun _ => .unreachable "down") (fun _ => [])).status = "ok" := by
  have h := c7_healthHandler ["a"] (fun _ => .unreachable "down") (fun _ => []) "a"
    (by decide) rfl
  exact ⟨h.2.1, by rw [h.2.2.1]; rfl, h.2.2.2⟩

lemma handleQuery_fst (maxQ rlMax : Nat) (now : Int) (m : RateMap) (ip : String)
    (body : ReqBody) (u : UpstreamOutcome) :
    (handleQuery maxQ rlMax now m ip body u).1 =
      (if (rateLimit rlMax now m ip).1 = false then HandleResult.mk 429 none
       else
        match extractSql body with
        | none => HandleResult.mk 400 none
        | some sql =>
          if trimL sql.data = [] then HandleResult.mk 400 none
          else if jsLength sql > maxQ then HandleResult.mk 413 none
          else if !(isReadOnlySql (normalizeSql sql)) then HandleResult.mk 403 none
          else
            match queryAmpResult u with
            | .ok _ => HandleResult.mk 200 (some sql)
            | .error _ => HandleResult.mk 502 (some sql)) := rfl

lemma handleQuery_fst_some (maxQ rlMax : Nat) (now : Int) (m : RateMap) (ip : String)
    (body : ReqBody) (u : UpstreamOutcome) (sql : String)
    (hrl : ¬ (rateLimit rlMax now m ip).1 = false)
    (hsql : extractSql body = some sql) :
    (handleQuery maxQ rlMax now m ip body u).1 =
      (if trimL sql.data = [] then HandleResult.mk 400 none
       else if jsLength sql > maxQ then HandleResult.mk 413 none
       else if !(isReadOnlySql (normalizeSql sql)) then HandleResult.mk 403 none
       else
         match queryAmpResult u with
         | .ok _ => HandleResult.mk 200 (some sql)
         | .error _ => HandleResult.mk 502 (some sql)) := by
  rw [handleQuery_fst, if_neg hrl, hsql]

lemma normalizeSql_nil (s : String) (h : trimL s.data = []) : normalizeSql s = [] := by
  unfold normalizeSql
  rw [h]
  rfl

lemma kwTest_head (k : Char) (ks l : List Char) (h : kwTest (k :: ks) l = true) :
    ∃ c cs, l = c :: cs ∧ c.toUpper = k := by
  cases l with
  | nil => exact absurd h (by simp [kwTest])
  | cons c cs =>
    refine ⟨c, cs, rfl, ?_⟩
    simp only [kwTest, Bool.and_eq_true, beq_iff_eq] at h
    exact h.1

lemma mut_not_readonly (l : List Char)
    (h : kwTest kwINSERT l = true ∨ kwTest kwUPDATE l = true
       ∨ kwTest kwDELETE l = true ∨ kwTest kwDROP l = true) :
    isReadOnlySql l = false := by
  have hex : ∃ c cs, l = c :: cs ∧ (c.toUpper = 'I' ∨ c.toUpper = 'U' ∨ c.toUpper = 'D') := by
    rcases h with h | h | h | h
    · obtain ⟨c, cs, hl, hc⟩ := kwTest_head 'I' ("NSERT".data) l h
      exact ⟨c, cs, hl, Or.inl hc⟩
    · obtain ⟨c, cs, hl, hc⟩ := kwTest_head 'U' ("PDATE".data) l h
      exact ⟨c, cs, hl, Or.inr (Or.inl hc)⟩
    · obtain ⟨c, cs, hl, hc⟩ := kwTest_head 'D' ("ELETE".data) l h
      exact ⟨c, cs, hl, Or.inr (Or.inr hc)⟩
    · obtain ⟨c, cs, hl, hc⟩ := kwTest_head 'D' ("ROP".data) l h
      exact ⟨c, cs, hl, Or.inr (Or.inr hc)⟩
  obtain ⟨c, cs, rfl, hc⟩ := hex
  have hred : isReadOnlySql (c :: cs) =
      (((c.toUpper == 'S') && kwTest ("ELECT".data) cs)
       || ((c.toUpper == 'W') && kwTest ("ITH".data) cs)
       || ((c.toUpper == 'E') && kwTest ("XPLAIN".data) cs)) := rfl
  rw [hred]
  rcases hc with hc | hc | hc <;> rw [hc] <;> rfl

lemma mut_nonempty (s : String)
    (h : kwTest kwINSERT (normalizeSql s) = true ∨ kwTest kwUPDATE (normalizeSql s) = true
       ∨ kwTest kwDELETE (normalizeSql s) = true ∨ kwTest kwDROP (normalizeSql s) = true) :
    ¬ (trimL s.data = []) := by
  intro h0
  rw [normalizeSql_nil s h0] at h
  rcases h with h | h | h | h <;> exact absurd h (by decide)

-- =============================================================================
-- C1
-- =============================================================================

/-- C1 counterexample: an INSERT statement longer than the configured maximum
query size is answered with 413, not the claimed 403 (the size check runs
before the read-only admission check), as shown with the maximum configured
to 4 from a fresh rate-limit ledger. -/
theorem c1_counterexample :
    kwTest kwINSERT (normalizeSql "INSERT INTO t VALUES (1)") = true
    ∧ (handleQuery 4 60 0 (fun _ => ([] : List Int)) "unknown"
        (.text "INSERT INTO t VALUES (1)") (.ok "")).1.status = 413
    ∧ (handleQuery 4 60 0 (fun _ => ([] : List Int)) "unknown"
        (.text "INSERT INTO t VALUES (1)") (.ok "")).1.status ≠ 403 := by
  refine ⟨by decide, by decide, by decide⟩

/-- C1 (amended): for every request the rate limiter admits, whose SQL body
does not exceed the configured maximum size, and whose normalised text
begins with INSERT, UPDATE, DELETE, or DROP (word-boundary match after
stripping line and block comments), the handler returns 403 and never calls
`queryAmp`. -/
theorem c1_mutating_rejected (maxQ rlMax : Nat) (now : Int) (m : RateMap) (ip : String)
    (body : ReqBody) (u : UpstreamOutcome) (sql : String)
    (hrl : (rateLimit rlMax now m ip).1 = true)
    (hsql : extractSql body = some sql)
    (hsize : jsLength sql ≤ maxQ)
    (hmut : kwTest kwINSERT (normalizeSql sql) = true
          ∨ kwTest kwUPDATE (normalizeSql sql) = true
          ∨ kwTest kwDELETE (normalizeSql sql) = true
          ∨ kwTest kwDROP (normalizeSql sql) = true) :
    (handleQuery maxQ rlMax now m ip body u).1.status = 403
    ∧ (handleQuery maxQ rlMax now m ip body u).1.sentSql = none := by
  have hne := mut_nonempty sql hmut
  have hro := mut_not_readonly (normalizeSql sql) hmut
  have hsz : ¬ (jsLength sql > maxQ) := by omega
  rw [handleQuery_fst, hrl]
  simp [hsql, hne, hsz, hro]

/-- C1 witness: a short DROP statement under default-like limits yields 403
with no upstream call. -/
theorem c1_mutating_rejected_witness :
    (handleQuery 100 60 0 (fun _ => ([] : List Int)) "x"
        (.text "DROP TABLE t") (.ok "")).1.status = 403
    ∧ (handleQuery 100 60 0 (fun _ => ([] : List Int)) "x"
        (.text "DROP TABLE t") (.ok "")).1.sentSql = none :=
  c1_mutating_rejected 100 60 0 (fun _ => ([] : List Int)) "x"
    (.text "DROP TABLE t") (.ok "") "DROP TABLE t" (by decide) rfl (by decide)
    (Or.inr (Or.inr (Or.inr (by decide))))

-- =============================================================================
-- C5
-- =============================================================================

/-- C5: the claim (and the code's own comment, which says the limit is in
bytes) requires the size check to use byte length, but line 222 compares
`sql.length`, JavaScript's UTF-16 code-unit count.  With the maximum
configured to 8, the body "SELECT é" has UTF-8 byte length 9 > 8 yet
code-unit length 8, so the handler forwards it upstream instead of
returning 413. -/
theorem c5_size_check_not_bytes :
    utf8Bytes "SELECT é" = 9
    ∧ jsLength "SELECT é" = 8
    ∧ (handleQuery 8 60 0 (fun _ => ([] : List Int)) "x"
        (.text "SELECT é") (.ok "")).1.status = 200
    ∧ (handleQuery 8 60 0 (fun _ => ([] : List Int)) "x"
        (.text "SELECT é") (.ok "")).1.sentSql = some "SELECT é" := by
  refine ⟨by decide, by decide, by decide, by decide⟩

-- =============================================================================
-- C8
-- =============================================================================

/-- C8: a request the rate limiter admits whose extracted SQL is absent,
empty, or whitespace-only after trimming (in particular a JSON body with
both the sql and query fields absent or empty) is answered 400 and the
upstream indexer is never contacted. -/
theorem c8_empty_rejected (maxQ rlMax : Nat) (now : Int) (m : RateMap) (ip : String)
    (body : ReqBody) (u : UpstreamOutcome)
    (hrl : (rateLimit rlMax now m ip).1 = true)
    (hempty : ∀ sql, extractSql body = some sql → trimL sql.data = []) :
    (handleQuery maxQ rlMax now m ip body u).1.status = 400
    ∧ (handleQuery maxQ rlMax now m ip body u).1.sentSql = none := by
  rw [handleQuery_fst, hrl]
  cases hx : extractSql body with
  | none => simp
  | some sql => simp [hempty sql hx]

/-- C8 witness: a JSON body with both fields absent is answered 400. -/
theorem c8_empty_rejected_witness :
    (handleQuery 10000 60 0 (fun _ => ([] : List Int)) "x"
        (.json none none) (.ok "")).1.status = 400
    ∧ (handleQuery 10000 60 0 (fun _ => ([] : List Int)) "x"
        (.json none none) (.ok "")).1.sentSql = none :=
  c8_empty_rejected 10000 60 0 (fun _ => ([] : List Int)) "x" (.json none none) (.ok "")
    (by decide) (fun sql h => nomatch h)

-- =============================================================================
-- C4
-- =============================================================================

/-- C4 counterexample: with a valid, known dataset, an upstream failure whose
error body contains the word "Invalid" makes the /blocks/latest catch clause
(which dispatches on substrings of the thrown message) answer 400 — a 4xx —
instead of the claimed unconditional 502. -/
theorem c4_counterexample :
    (blocksLatest 0 ⟨["ds"], 0⟩ .networkError (some "ds")
        (.httpError 500 "Invalid input") []).status = 400
    ∧ (blocksLatest 0 ⟨["ds"], 0⟩ .networkError (some "ds")
        (.httpError 500 "Invalid input") []).status ≠ 502 :=
  ⟨by decide, by decide⟩

/-- C4 (amended): for a valid, known dataset, /blocks/latest answers 502 on
an upstream failure provided the thrown error text (which embeds the
upstream status and body) contains none of "Invalid", "Unknown", "Missing";
if it does contain one, the handler answers 400 instead.  POST /query is
unaffected: whenever it contacted the upstream and the forward failed, it
answers 502 regardless of the error text. -/
theorem c4_upstream_5xx (now : Int) (st : DirState) (f : FetchOutcome) (ds : String)
    (u : UpstreamOutcome) (parsed : List MarkerRow) (msg : String)
    (hds : ds ≠ "")
    (hval : validateDataset ds (refreshDatasets now st f).2.1 = .ok ds)
    (herr : queryAmpResult u = .error msg)
    (hmsg : errDispatch400 msg = false) :
    (blocksLatest now st f (some ds) u parsed).status = 502
    ∧ (∀ (maxQ rlMax : Nat) (now2 : Int) (m : RateMap) (ip : String) (body : ReqBody),
        (handleQuery maxQ rlMax now2 m ip body u).1.sentSql ≠ none →
        (handleQuery maxQ rlMax now2 m ip body u).1.status = 502) := by
  constructor
  · simp [blocksLatest, hds, hval, herr, hmsg]
  · intro maxQ rlMax now2 m ip body hsent
    by_cases h1 : (rateLimit rlMax now2 m ip).1 = false
    · rw [handleQuery_fst, if_pos h1] at hsent
      simp at hsent
    · cases hx : extractSql body with
      | none =>
        rw [handleQuery_fst, if_neg h1, hx] at hsent
        simp at hsent
      | some sql =>
        rw [handleQuery_fst_some maxQ rlMax now2 m ip body u sql h1 hx] at hsent ⊢
        rw [herr] at hsent ⊢
        by_cases h2 : trimL sql.data = []
        · rw [if_pos h2] at hsent
          simp at hsent
        · rw [if_neg h2] at hsent ⊢
          by_cases h3 : jsLength sql > maxQ
          · rw [if_pos h3] at hsent
            simp at hsent
          · rw [if_neg h3] at hsent ⊢
            by_cases h4 : (!isReadOnlySql (normalizeSql sql)) = true
            · rw [if_pos h4] at hsent
              simp at hsent
            · rw [if_neg h4] at hsent ⊢

/-- C4 witness: an upstream 500 with a neutral body yields 502 on
/blocks/latest for a valid known dataset. -/
theorem c4_upstream_5xx_witness :
    (blocksLatest 0 ⟨["ds"], 0⟩ .networkError (some "ds")
        (.httpError 500 "boom") []).status = 502 :=
  (c4_upstream_5xx 0 ⟨["ds"], 0⟩ .networkError "ds" (.httpError 500 "boom") []
    ("AMP query failed: 500 - boom") (by decide) (by rfl) (by rfl) (by decide)).1

-- =============================================================================
-- C9
-- =============================================================================

/-- C9: an upstream row whose `latest` marker equals 0 is reported as a null
`latestBlock` by /blocks/latest — indistinguishable there from an absent
marker — and as a null per-dataset marker by /health, because the extraction
guards the conversion with a JS truthiness test. -/
theorem c9_zero_marker (now : Int) (st : DirState) (f : FetchOutcome) (ds ubody : String)
    (datasets : List String) (u : String → UpstreamOutcome)
    (parsed : String → List MarkerRow)
    (hds : ds ≠ "")
    (hval : validateDataset ds (refreshDatasets now st f).2.1 = .ok ds)
    (hmem : ds ∈ datasets)
    (hub : u ds = .ok ubody)
    (hp : parsed ds = [⟨LatestVal.num 0⟩]) :
    (blocksLatest now st f (some ds) (.ok ubody) [⟨LatestVal.num 0⟩]).status = 200
    ∧ (blocksLatest now st f (some ds) (.ok ubody) [⟨LatestVal.num 0⟩]).latestBlock = none
    ∧ (blocksLatest now st f (some ds) (.ok ubody) [⟨LatestVal.num 0⟩]).latestBlock
        = (blocksLatest now st f (some ds) (.ok ubody) []).latestBlock
    ∧ (healthHandler datasets u parsed).datasets.lookup ds = some none := by
  refine ⟨?_, ?_, ?_, ?_⟩
  · simp [blocksLatest, hds, hval, queryAmpResult]
  · simp [blocksLatest, hds, hval, queryAmpResult, latestOf]
  · simp [blocksLatest, hds, hval, queryAmpResult, latestOf]
  · have hnull : latestOf (rowsAfterCatch (u ds) (parsed ds)) = none := by
      rw [hub, hp]
      rfl
    have := lookup_map_self (fun d => latestOf (rowsAfterCatch (u d) (parsed d))) datasets ds hmem
    simpa [healthHandler, hnull] using this

/-- C9 witness: marker 0 reported as null by both handlers. -/
theorem c9_zero_marker_witness :
    (blocksLatest 0 ⟨["ds"], 0⟩ .networkError (some "ds") (.ok "x")
        [⟨LatestVal.num 0⟩]).latestBlock = none
    ∧ (healthHandler ["ds"] (fun _ => .ok "x")
        (fun _ => [⟨LatestVal.num 0⟩])).datasets.lookup "ds" = some none := by
  have h := c9_zero_marker 0 ⟨["ds"], 0⟩ .networkError "ds" "x" ["ds"]
    (fun _ => .ok "x") (fun _ => [⟨LatestVal.num 0⟩]) (by decide) (by rfl) (by decide) rfl rfl
  exact ⟨h.2.1, h.2.2.2⟩
